import Mathlib

/-!
Verification of the LiveMartODS backend core logic: inventory stock
reservation and discount pricing (Inventory model), the order status
state machine (Order model), and the auth/token lifecycle
(AuthService login and refresh-token rotation).

Each definition is a shallow embedding of the corresponding TypeScript
function. Mongoose documents become Lean structures; instance methods
that mutate `this` and then `save()` become pure state-passing
functions; a method that throws becomes `Except String`; JS numbers
used for money are modelled as rationals and stock counters as
integers; `Date` values are modelled as integer timestamps.
-/

namespace LiveMart

/-! ## Inventory model (Inventory.model: DiscountSchema, InventorySchema) -/

/-- Discount type enum from the Inventory model. -/
inductive DiscountType where
  | PERCENTAGE
  | FIXED_AMOUNT
  | BUY_ONE_GET_ONE
  | FREE_SHIPPING
deriving DecidableEq, Repr

/-- One embedded discount document (DiscountSchema). Dates are integer
timestamps; money fields are rationals. -/
structure Discount where
  type : DiscountType
  value : ℚ
  minPurchase : ℚ
  maxDiscount : ℚ
  validFrom : Int
  validUntil : Int
  isActive : Bool
deriving DecidableEq, Repr

/-- An inventory document (InventorySchema): the fields the instance
methods read or write. -/
structure Inventory where
  currentStock : Int
  reservedStock : Int
  reorderLevel : Int
  sellingPrice : ℚ
  discounts : List Discount
  lastRestocked : Int
deriving DecidableEq, Repr

/-- Schema-level validators on the stock counters: both fields carry a
`min: 0` constraint in InventorySchema, so any persisted record
satisfies this. -/
def Inventory.WF (inv : Inventory) : Prop :=
  0 ≤ inv.currentStock ∧ 0 ≤ inv.reservedStock

instance (inv : Inventory) : Decidable inv.WF := by
  unfold Inventory.WF; infer_instance

/-- InventorySchema.methods.updateStock: adds `quantity` to
currentStock, throws "Insufficient stock" if the result is negative
(the throw happens before `save()`, so the persisted record is
unchanged on failure), and refreshes lastRestocked when quantity is
positive. -/
def Inventory.updateStock (inv : Inventory) (quantity : Int) (now : Int) :
    Except String Inventory :=
  let newStock := inv.currentStock + quantity
  if newStock < 0 then
    .error "Insufficient stock"
  else
    .ok { inv with
          currentStock := newStock,
          lastRestocked := if quantity > 0 then now else inv.lastRestocked }

/-- InventorySchema.methods.reserveStock: if available stock
(currentStock - reservedStock) covers the quantity, increments
reservedStock and returns true; otherwise returns false and leaves the
record unchanged. Never throws. -/
def Inventory.reserveStock (inv : Inventory) (quantity : Int) :
    Bool × Inventory :=
  let availableStock := inv.currentStock - inv.reservedStock
  if availableStock ≥ quantity then
    (true, { inv with reservedStock := inv.reservedStock + quantity })
  else
    (false, inv)

/-- InventorySchema.methods.releaseReservedStock: sets reservedStock to
max 0 (reservedStock - quantity). -/
def Inventory.releaseReservedStock (inv : Inventory) (quantity : Int) :
    Inventory :=
  { inv with reservedStock := max 0 (inv.reservedStock - quantity) }

/-- InventorySchema.methods.confirmReservedStock: if reservedStock
covers the quantity, decrements both reservedStock and currentStock by
it; otherwise throws "Insufficient reserved stock" leaving the record
unchanged. -/
def Inventory.confirmReservedStock (inv : Inventory) (quantity : Int) :
    Except String Inventory :=
  if inv.reservedStock ≥ quantity then
    .ok { inv with
          reservedStock := inv.reservedStock - quantity,
          currentStock := inv.currentStock - quantity }
  else
    .error "Insufficient reserved stock"

/-- One step of the discount loop body in calculateFinalPrice: applied
to the running price for each active discount in list order. -/
def applyDiscount (finalPrice : ℚ) (d : Discount) : ℚ :=
  if finalPrice ≥ d.minPurchase then
    let amount0 : ℚ :=
      if d.type = DiscountType.PERCENTAGE then finalPrice * d.value / 100
      else if d.type = DiscountType.FIXED_AMOUNT then d.value
      else 0
    let amount := if d.maxDiscount > 0 then min amount0 d.maxDiscount else amount0
    finalPrice - amount
  else
    finalPrice

/-- InventorySchema.methods.calculateFinalPrice: starts from
sellingPrice * quantity, filters discounts by isActive and
validFrom <= now and validUntil >= now (note: both window ends
inclusive in the code), folds applyDiscount over them in list order,
and floors the result at 0. -/
def Inventory.calculateFinalPrice (inv : Inventory) (quantity : Int) (now : Int) : ℚ :=
  let base : ℚ := inv.sellingPrice * (quantity : ℚ)
  let activeDiscounts := inv.discounts.filter
    (fun d => d.isActive && d.validFrom ≤ now && d.validUntil ≥ now)
  max 0 (activeDiscounts.foldl applyDiscount base)

/-- Restatement of the claimed pricing rule with the window exclusive
at validUntil (validFrom <= now < validUntil), exactly as the spec
words it; everything else is as in the code. Used to compare the spec
wording with the source. -/
def Inventory.calculateFinalPriceSpecWindow (inv : Inventory) (quantity : Int)
    (now : Int) : ℚ :=
  let base : ℚ := inv.sellingPrice * (quantity : ℚ)
  let activeDiscounts := inv.discounts.filter
    (fun d => d.isActive && d.validFrom ≤ now && now < d.validUntil)
  max 0 (activeDiscounts.foldl applyDiscount base)

/-! ## Order model (Order.model: OrderSchema and its instance methods) -/

/-- OrderStatus enum from the Order model. -/
inductive OrderStatus where
  | PENDING
  | CONFIRMED
  | PROCESSING
  | SHIPPED
  | OUT_FOR_DELIVERY
  | DELIVERED
  | CANCELLED
  | RETURNED
deriving DecidableEq, Repr

/-- PaymentStatus enum from the Order model. -/
inductive PaymentStatus where
  | PENDING
  | PROCESSING
  | COMPLETED
  | FAILED
  | REFUNDED
  | CANCELLED
deriving DecidableEq, Repr

/-- One entry of trackingInfo.statusHistory. -/
structure StatusHistoryEntry where
  status : OrderStatus
  timestamp : Int
  notes : Option String
deriving DecidableEq, Repr

/-- The fields of an order document that the status methods read or
write: status, paymentStatus and trackingInfo. -/
structure Order where
  status : OrderStatus
  paymentStatus : PaymentStatus
  trackingCurrentStatus : OrderStatus
  statusHistory : List StatusHistoryEntry
deriving DecidableEq, Repr

/-- OrderSchema.methods.updateStatus: unconditionally sets status and
trackingInfo.currentStatus to the new status and appends an entry to
statusHistory. It performs no transition check. -/
def Order.updateStatus (o : Order) (newStatus : OrderStatus)
    (now : Int) (notes : Option String) : Order :=
  { o with
    status := newStatus,
    trackingCurrentStatus := newStatus,
    statusHistory := o.statusHistory ++
      [{ status := newStatus, timestamp := now, notes := notes }] }

/-- OrderSchema.methods.cancel: throws "Cannot cancel delivered order"
when status is DELIVERED; otherwise runs updateStatus CANCELLED with
the reason as note and then sets paymentStatus to CANCELLED. -/
def Order.cancel (o : Order) (now : Int) (reason : Option String) :
    Except String Order :=
  if o.status = OrderStatus.DELIVERED then
    .error "Cannot cancel delivered order"
  else
    .ok { o.updateStatus OrderStatus.CANCELLED now reason with
          paymentStatus := PaymentStatus.CANCELLED }

/-- OrderSchema.virtual canCancel: false exactly when the status is
DELIVERED, CANCELLED or RETURNED. -/
def Order.canCancel (o : Order) : Bool :=
  !([OrderStatus.DELIVERED, OrderStatus.CANCELLED,
     OrderStatus.RETURNED].contains o.status)

/-- Terminal states as the spec names them: DELIVERED, CANCELLED,
RETURNED. -/
def OrderStatus.isTerminal : OrderStatus → Bool
  | OrderStatus.DELIVERED => true
  | OrderStatus.CANCELLED => true
  | OrderStatus.RETURNED => true
  | _ => false

/-! ## Auth service (auth.service.ts) and token store

The user repository is modelled as a partial map from email to a user
record; bcrypt comparison is a parameter of login (any function from
candidate password and stored hash to Bool), so nothing about the hash
function itself is assumed. -/

/-- The fields of a user document that login reads or writes. -/
structure UserDoc where
  email : String
  password : String
  isActive : Bool
  lastLogin : Option Int
deriving DecidableEq, Repr

/-- AuthService.login: looks the user up by email, throws
"Invalid email or password" when absent, "Account is deactivated.
Please contact support." when inactive, "Invalid email or password"
again when the bcrypt comparison fails, and otherwise updates
lastLogin and returns the user (token issuance elided: it cannot
fail). -/
def login (compare : String → String → Bool)
    (findByEmail : String → Option UserDoc)
    (email password : String) (now : Int) : Except String UserDoc :=
  match findByEmail email with
  | none => .error "Invalid email or password"
  | some user =>
    if !user.isActive then
      .error "Account is deactivated. Please contact support."
    else if !(compare password user.password) then
      .error "Invalid email or password"
    else
      .ok { user with lastLogin := some now }

/-- Modelled from the spec: jwt.service.ts (the Token Service and the
Redis token store) is not part of the sources. A token is a signed,
time-bounded credential binding the userId; freshness of issuance is
modelled by the issuedAt stamp drawn from a monotone clock, and the
isRefresh flag separates the two tokens of a pair. -/
structure Token where
  userId : String
  issuedAt : Nat
  isRefresh : Bool
deriving DecidableEq, Repr

/-- A pair of freshly issued tokens, as returned by
jwtService.generateTokenPair. -/
structure TokenPair where
  accessToken : Token
  refreshToken : Token
deriving DecidableEq, Repr

/-- Modelled from the spec: the token-store state. store maps a userId
to its single currently honored refresh token; clock is the monotone
issuance stamp source. -/
structure TokenState where
  store : String → Option Token
  clock : Nat

/-- Modelled from the spec: jwtService.generateTokenPair issues a
fresh access/refresh pair stamped with the current clock and advances
the clock. -/
def generateTokenPair (userId : String) (st : TokenState) :
    TokenPair × TokenState :=
  (⟨⟨userId, st.clock, false⟩, ⟨userId, st.clock, true⟩⟩,
   { st with clock := st.clock + 1 })

/-- Modelled from the spec: jwtService.storeRefreshToken overwrites
the stored refresh token for the user. -/
def storeRefreshToken (userId : String) (token : Token) (st : TokenState) :
    TokenState :=
  { st with store := fun u => if u = userId then some token else st.store u }

/-- Well-formedness of a token state: every stored token was stamped
before the current clock. It holds for any state produced by issuing
tokens through generateTokenPair and storing them. -/
def TokenState.WF (st : TokenState) : Prop :=
  ∀ u t, st.store u = some t → t.issuedAt < st.clock

/-- AuthService.refreshToken: verifies the refresh token (signature
and expiry checks of jwtService.verifyRefreshToken are elided: the
argument is already a structured token), throws "Invalid refresh
token" when the stored token for the embedded userId is absent or
differs, "User not found or inactive" when the user is gone or
inactive, and otherwise issues a fresh pair and overwrites the stored
refresh token. -/
def refreshToken (findById : String → Option UserDoc)
    (token : Token) (st : TokenState) :
    Except String (TokenPair × TokenState) :=
  match st.store token.userId with
  | none => .error "Invalid refresh token"
  | some storedToken =>
    if storedToken ≠ token then
      .error "Invalid refresh token"
    else
      match findById token.userId with
      | none => .error "User not found or inactive"
      | some user =>
        if !user.isActive then
          .error "User not found or inactive"
        else
          let (tokens, st1) := generateTokenPair token.userId st
          .ok (tokens, storeRefreshToken token.userId tokens.refreshToken st1)

/-! ## Concrete records used by witnesses and counterexamples -/

/-- A sample well-formed inventory record: 10 in stock, 2 reserved. -/
def invA : Inventory :=
  { currentStock := 10, reservedStock := 2, reorderLevel := 3,
    sellingPrice := 5, discounts := [], lastRestocked := 0 }

/-- A percentage discount (10 percent, min purchase 150, no cap)
valid on the window from 0 to 5. -/
def discA : Discount :=
  { type := DiscountType.PERCENTAGE, value := 10, minPurchase := 150,
    maxDiscount := 0, validFrom := 0, validUntil := 5, isActive := true }

/-- The inventory record of the pricing example: sellingPrice 100 with
the single discount discA. -/
def invPrice : Inventory :=
  { currentStock := 10, reservedStock := 0, reorderLevel := 1,
    sellingPrice := 100, discounts := [discA], lastRestocked := 0 }

/-! ## Claims about the inventory stock operations -/

/-- C1: reserveStock(qty) succeeds (returns true and increments
reservedStock by qty) if and only if currentStock - reservedStock is
at least qty; when it returns false it leaves the record unchanged
(and, being a total function, never throws), so the caller must reject
the order line. -/
theorem reserveStock_correct (inv : Inventory) (qty : Int) :
    ((inv.reserveStock qty).1 = true ↔
      inv.currentStock - inv.reservedStock ≥ qty)
    ∧ ((inv.reserveStock qty).1 = true →
        (inv.reserveStock qty).2.reservedStock = inv.reservedStock + qty)
    ∧ ((inv.reserveStock qty).1 = false → (inv.reserveStock qty).2 = inv) := by
  unfold Inventory.reserveStock
  by_cases h : inv.currentStock - inv.reservedStock ≥ qty <;> simp [h]

/-- Witness for C1 at the concrete record invA with qty 4. -/
theorem reserveStock_correct_witness :
    ((invA.reserveStock 4).1 = true ↔
      invA.currentStock - invA.reservedStock ≥ 4)
    ∧ ((invA.reserveStock 4).1 = true →
        (invA.reserveStock 4).2.reservedStock = invA.reservedStock + 4)
    ∧ ((invA.reserveStock 4).1 = false → (invA.reserveStock 4).2 = invA) :=
  reserveStock_correct invA 4

/-- C2: starting from a record with reservedStock at most currentStock,
reserveStock can never leave reservedStock above currentStock,
whatever quantity is requested. -/
theorem reserveStock_preserves_invariant (inv : Inventory) (qty : Int)
    (h : inv.reservedStock ≤ inv.currentStock) :
    (inv.reserveStock qty).2.reservedStock ≤
      (inv.reserveStock qty).2.currentStock := by
  unfold Inventory.reserveStock
  by_cases hc : inv.currentStock - inv.reservedStock ≥ qty <;>
    simp [hc] <;> omega

/-- Witness for C2 at invA with qty 4. -/
theorem reserveStock_preserves_invariant_witness :
    invA.reservedStock ≤ invA.currentStock ∧
    (invA.reserveStock 4).2.reservedStock ≤
      (invA.reserveStock 4).2.currentStock :=
  ⟨by decide, reserveStock_preserves_invariant invA 4 (by decide)⟩

/-- C3: confirmReservedStock(qty) throws the insufficient-reservation
error exactly when reservedStock < qty, in which case the persisted
record is unchanged (the model returns only the error); otherwise it
decrements both reservedStock and currentStock by exactly qty. -/
theorem confirmReservedStock_correct (inv : Inventory) (qty : Int) :
    (inv.reservedStock < qty →
      inv.confirmReservedStock qty = .error "Insufficient reserved stock")
    ∧ (inv.reservedStock ≥ qty →
      inv.confirmReservedStock qty =
        .ok { inv with
              reservedStock := inv.reservedStock - qty,
              currentStock := inv.currentStock - qty }) := by
  unfold Inventory.confirmReservedStock
  constructor
  · intro h
    rw [if_neg (by omega)]
  · intro h
    rw [if_pos h]

/-- Witness for C3 at invA with qty 2. -/
theorem confirmReservedStock_correct_witness :
    (invA.reservedStock < 2 →
      invA.confirmReservedStock 2 = .error "Insufficient reserved stock")
    ∧ (invA.reservedStock ≥ 2 →
      invA.confirmReservedStock 2 =
        .ok { invA with
              reservedStock := invA.reservedStock - 2,
              currentStock := invA.currentStock - 2 }) :=
  confirmReservedStock_correct invA 2

/-- C4: releaseReservedStock(qty) subtracts min(qty, reservedStock)
from reservedStock, so the counter never goes negative; and on any
well-formed record, a successful reserveStock(qty) followed by
releaseReservedStock(qty) restores reservedStock to its prior value. -/
theorem releaseReservedStock_correct (inv : Inventory) (qty : Int)
    (h : inv.WF) :
    ((inv.releaseReservedStock qty).reservedStock =
      inv.reservedStock - min qty inv.reservedStock)
    ∧ 0 ≤ (inv.releaseReservedStock qty).reservedStock
    ∧ ((inv.reserveStock qty).1 = true →
        ((inv.reserveStock qty).2.releaseReservedStock qty).reservedStock =
          inv.reservedStock) := by
  obtain ⟨hc, hr⟩ := h
  unfold Inventory.releaseReservedStock Inventory.reserveStock
  by_cases hres : inv.currentStock - inv.reservedStock ≥ qty <;>
    simp [hres] <;> omega

/-- Witness for C4 at invA with qty 4. -/
theorem releaseReservedStock_correct_witness :
    invA.WF ∧
    (((invA.releaseReservedStock 4).reservedStock =
        invA.reservedStock - min 4 invA.reservedStock)
      ∧ 0 ≤ (invA.releaseReservedStock 4).reservedStock
      ∧ ((invA.reserveStock 4).1 = true →
          ((invA.reserveStock 4).2.releaseReservedStock 4).reservedStock =
            invA.reservedStock)) :=
  ⟨by decide, releaseReservedStock_correct invA 4 (by decide)⟩

/-- C10: updateStock guards only that currentStock stays nonnegative:
it throws "Insufficient stock" exactly when currentStock + quantity is
negative, and it never touches reservedStock, so there is a
well-formed record and a negative quantity for which it succeeds yet
leaves reservedStock above currentStock. -/
theorem updateStock_breaks_reservation_invariant :
    (∀ (inv : Inventory) (qty now : Int),
      (inv.updateStock qty now = .error "Insufficient stock" ↔
        inv.currentStock + qty < 0)
      ∧ (0 ≤ inv.currentStock + qty →
          inv.updateStock qty now =
            .ok { inv with
                  currentStock := inv.currentStock + qty,
                  lastRestocked :=
                    if qty > 0 then now else inv.lastRestocked }))
    ∧ invA.WF ∧ (-9 : Int) < 0
    ∧ invA.updateStock (-9) 0 =
        .ok { invA with currentStock := 1 }
    ∧ ({ invA with currentStock := 1 } : Inventory).currentStock <
        ({ invA with currentStock := 1 } : Inventory).reservedStock := by
  refine ⟨fun inv qty now => ⟨?_, ?_⟩, by decide, by decide, by rfl, by decide⟩
  · unfold Inventory.updateStock
    by_cases h : inv.currentStock + qty < 0 <;> simp [h]
  · intro h
    unfold Inventory.updateStock
    rw [if_neg (by omega)]

/-- Witness for C10: the error-iff-negative part instantiated at invA
with quantity -11. -/
theorem updateStock_breaks_reservation_invariant_witness :
    invA.updateStock (-11) 0 = .error "Insufficient stock" ↔
      invA.currentStock + (-11) < 0 :=
  (updateStock_breaks_reservation_invariant.1 invA (-11) 0).1

/-! ## Claims about discount pricing -/

/-- C6 counterexample: at now = validUntil the code still applies the
discount (its window test is validUntil >= now, inclusive), while the
claimed window validFrom <= now < validUntil would not: on invPrice
with qty 2 at now = 5 the code yields 180, the claimed rule 200. -/
theorem calculateFinalPrice_window_counterexample :
    invPrice.calculateFinalPrice 2 5 = 180
    ∧ invPrice.calculateFinalPriceSpecWindow 2 5 = 200
    ∧ invPrice.calculateFinalPrice 2 5 ≠
        invPrice.calculateFinalPriceSpecWindow 2 5 := by
  refine ⟨?_, ?_, ?_⟩ <;>
    norm_num [Inventory.calculateFinalPrice,
      Inventory.calculateFinalPriceSpecWindow, applyDiscount, invPrice, discA,
      List.filter, List.foldl]

/-- C6 amended: calculateFinalPrice(qty) starts from
sellingPrice * qty and applies, in list order, every discount that is
isActive and currently valid with BOTH window ends inclusive
(validFrom <= now <= validUntil) and whose minPurchase is met by the
running price, each amount capped by its own maxDiscount when that cap
is positive; the result is floored at 0 (hence nonnegative); a
discount of a type other than PERCENTAGE or FIXED_AMOUNT never alters
the running price; and the example sellingPrice=100, qty=2, one active
PERCENTAGE discount value=10 minPurchase=150 yields 180 at a time
inside the window. -/
theorem calculateFinalPrice_amended (inv : Inventory) (qty now : Int) :
    (inv.calculateFinalPrice qty now =
      max 0 ((inv.discounts.filter
        (fun d => d.isActive && decide (d.validFrom ≤ now)
          && decide (now ≤ d.validUntil))).foldl
            applyDiscount (inv.sellingPrice * (qty : ℚ))))
    ∧ 0 ≤ inv.calculateFinalPrice qty now
    ∧ (∀ (p : ℚ) (d : Discount), d.type ≠ DiscountType.PERCENTAGE →
        d.type ≠ DiscountType.FIXED_AMOUNT → 0 ≤ d.maxDiscount →
        applyDiscount p d = p)
    ∧ invPrice.calculateFinalPrice 2 1 = 180 := by
  refine ⟨?_, ?_, ?_, ?_⟩
  · rfl
  · unfold Inventory.calculateFinalPrice
    exact le_max_left 0 _
  · intro p d h1 h2 h3
    unfold applyDiscount
    by_cases hmin : p ≥ d.minPurchase
    · by_cases hcap : d.maxDiscount > 0
      · simp [hmin, h1, h2, hcap, min_eq_left (le_of_lt hcap)]
      · simp [hmin, h1, h2, hcap]
    · simp [hmin]
  · norm_num [Inventory.calculateFinalPrice, applyDiscount, invPrice, discA,
      List.filter, List.foldl]

/-- Witness for C6 amended at invPrice with qty 2 and now 1. -/
theorem calculateFinalPrice_amended_witness :
    (invPrice.calculateFinalPrice 2 1 =
      max 0 ((invPrice.discounts.filter
        (fun d => d.isActive && decide (d.validFrom ≤ (1 : Int))
          && decide ((1 : Int) ≤ d.validUntil))).foldl
            applyDiscount (invPrice.sellingPrice * ((2 : Int) : ℚ))))
    ∧ 0 ≤ invPrice.calculateFinalPrice 2 1
    ∧ (∀ (p : ℚ) (d : Discount), d.type ≠ DiscountType.PERCENTAGE →
        d.type ≠ DiscountType.FIXED_AMOUNT → 0 ≤ d.maxDiscount →
        applyDiscount p d = p)
    ∧ invPrice.calculateFinalPrice 2 1 = 180 :=
  calculateFinalPrice_amended invPrice 2 1

/-! ## Claims about the order status state machine -/

/-- A delivered order. -/
def orderDelivered : Order :=
  { status := OrderStatus.DELIVERED, paymentStatus := PaymentStatus.COMPLETED,
    trackingCurrentStatus := OrderStatus.DELIVERED,
    statusHistory := [{ status := OrderStatus.DELIVERED, timestamp := 0,
                        notes := none }] }

/-- A cancelled order. -/
def orderCancelled : Order :=
  { status := OrderStatus.CANCELLED, paymentStatus := PaymentStatus.CANCELLED,
    trackingCurrentStatus := OrderStatus.CANCELLED,
    statusHistory := [{ status := OrderStatus.CANCELLED, timestamp := 0,
                        notes := none }] }

/-- A pending order. -/
def orderPending : Order :=
  { status := OrderStatus.PENDING, paymentStatus := PaymentStatus.PENDING,
    trackingCurrentStatus := OrderStatus.PENDING,
    statusHistory := [{ status := OrderStatus.PENDING, timestamp := 0,
                        notes := none }] }

/-- C7: cancel() throws exactly on a DELIVERED order; on any other
status it succeeds, appending a CANCELLED entry to the status history
and setting both status and paymentStatus to CANCELLED; in particular
it succeeds on a PENDING order. -/
theorem cancel_correct (o : Order) (now : Int) (reason : Option String) :
    (o.status = OrderStatus.DELIVERED →
      o.cancel now reason = .error "Cannot cancel delivered order")
    ∧ (o.status ≠ OrderStatus.DELIVERED →
      o.cancel now reason =
        .ok { status := OrderStatus.CANCELLED,
              paymentStatus := PaymentStatus.CANCELLED,
              trackingCurrentStatus := OrderStatus.CANCELLED,
              statusHistory := o.statusHistory ++
                [{ status := OrderStatus.CANCELLED, timestamp := now,
                   notes := reason }] })
    ∧ (o.status = OrderStatus.PENDING →
        ∃ o2, o.cancel now reason = .ok o2 ∧
          o2.status = OrderStatus.CANCELLED ∧
          o2.paymentStatus = PaymentStatus.CANCELLED ∧
          o2.statusHistory.length = o.statusHistory.length + 1) := by
  refine ⟨fun h => ?_, fun h => ?_, fun h => ?_⟩
  · unfold Order.cancel
    rw [if_pos h]
  · unfold Order.cancel Order.updateStatus
    rw [if_neg h]
  · unfold Order.cancel Order.updateStatus
    rw [if_neg (by rw [h]; decide)]
    exact ⟨_, rfl, rfl, rfl, by simp⟩

/-- Witness for C7 at the concrete pending order. -/
theorem cancel_correct_witness :
    (orderPending.status = OrderStatus.DELIVERED →
      orderPending.cancel 1 none = .error "Cannot cancel delivered order")
    ∧ (orderPending.status ≠ OrderStatus.DELIVERED →
      orderPending.cancel 1 none =
        .ok { status := OrderStatus.CANCELLED,
              paymentStatus := PaymentStatus.CANCELLED,
              trackingCurrentStatus := OrderStatus.CANCELLED,
              statusHistory := orderPending.statusHistory ++
                [{ status := OrderStatus.CANCELLED, timestamp := 1,
                   notes := none }] })
    ∧ (orderPending.status = OrderStatus.PENDING →
        ∃ o2, orderPending.cancel 1 none = .ok o2 ∧
          o2.status = OrderStatus.CANCELLED ∧
          o2.paymentStatus = PaymentStatus.CANCELLED ∧
          o2.statusHistory.length = orderPending.statusHistory.length + 1) :=
  cancel_correct orderPending 1 none

/-- C8 counterexample: terminal orders are not immutable. updateStatus
on a DELIVERED order succeeds, changes the status and appends to the
history, and cancel() on a CANCELLED order also succeeds and appends
to the history. -/
theorem terminal_not_immutable_counterexample :
    orderDelivered.status.isTerminal = true
    ∧ (orderDelivered.updateStatus OrderStatus.CONFIRMED 1 none).status =
        OrderStatus.CONFIRMED
    ∧ (orderDelivered.updateStatus OrderStatus.CONFIRMED 1 none
        ).statusHistory.length = orderDelivered.statusHistory.length + 1
    ∧ orderCancelled.status.isTerminal = true
    ∧ orderCancelled.cancel 1 none =
        .ok { status := OrderStatus.CANCELLED,
              paymentStatus := PaymentStatus.CANCELLED,
              trackingCurrentStatus := OrderStatus.CANCELLED,
              statusHistory := orderCancelled.statusHistory ++
                [{ status := OrderStatus.CANCELLED, timestamp := 1,
                   notes := none }] }
    ∧ (orderCancelled.statusHistory ++
        [{ status := OrderStatus.CANCELLED, timestamp := 1,
           notes := none }] : List StatusHistoryEntry) ≠
        orderCancelled.statusHistory := by
  refine ⟨rfl, rfl, rfl, rfl, rfl, by decide⟩

/-- C8 amended: the only terminal-state guards in the code are these:
the canCancel virtual is false exactly on the terminal states
(DELIVERED, CANCELLED, RETURNED); cancel() itself fails exactly on
DELIVERED (so it still succeeds on CANCELLED and RETURNED orders,
appending to their history); and updateStatus performs no check at
all: it always succeeds, setting the status and appending a history
entry whatever the current state. -/
theorem terminal_guard_amended (o : Order) (s : OrderStatus)
    (now : Int) (notes : Option String) :
    (o.canCancel = false ↔ o.status.isTerminal = true)
    ∧ ((∃ e, o.cancel now notes = .error e) ↔
        o.status = OrderStatus.DELIVERED)
    ∧ (o.updateStatus s now notes).status = s
    ∧ (o.updateStatus s now notes).statusHistory =
        o.statusHistory ++ [{ status := s, timestamp := now,
                              notes := notes }] := by
  refine ⟨?_, ?_, rfl, rfl⟩
  · unfold Order.canCancel OrderStatus.isTerminal
    cases o.status <;> simp
  · unfold Order.cancel
    by_cases h : o.status = OrderStatus.DELIVERED
    · rw [if_pos h]
      exact ⟨fun _ => h, fun _ => ⟨_, rfl⟩⟩
    · rw [if_neg h]
      exact ⟨fun ⟨e, he⟩ => absurd he (by simp), fun hd => absurd hd h⟩

/-- Witness for C8 amended at the concrete cancelled order. -/
theorem terminal_guard_amended_witness :
    (orderCancelled.canCancel = false ↔
      orderCancelled.status.isTerminal = true)
    ∧ ((∃ e, orderCancelled.cancel 1 none = .error e) ↔
        orderCancelled.status = OrderStatus.DELIVERED)
    ∧ (orderCancelled.updateStatus OrderStatus.RETURNED 1 none).status =
        OrderStatus.RETURNED
    ∧ (orderCancelled.updateStatus OrderStatus.RETURNED 1 none
        ).statusHistory = orderCancelled.statusHistory ++
          [{ status := OrderStatus.RETURNED, timestamp := 1,
             notes := none }] :=
  terminal_guard_amended orderCancelled OrderStatus.RETURNED 1 none

/-! ## Claims about the auth service -/

/-- An active user record. -/
def userActive : UserDoc :=
  { email := "a@x.com", password := "hashA", isActive := true,
    lastLogin := none }

/-- An inactive user record. -/
def userInactive : UserDoc :=
  { email := "b@x.com", password := "hashB", isActive := false,
    lastLogin := none }

/-- A two-user repository keyed by email. -/
def dbA : String → Option UserDoc := fun e =>
  if e = "a@x.com" then some userActive
  else if e = "b@x.com" then some userInactive
  else none

/-- A toy bcrypt comparison: candidate equals stored hash. The login
theorems hold for every comparison function; this one only feeds the
witness. -/
def compareA : String → String → Bool := fun p h => p = h

/-- C9: an unknown email and a known active email with a wrong
password produce the very same error value "Invalid email or password"
(so the caller cannot distinguish the two causes), and the
deactivated-account error occurs only when the account exists and is
inactive. Holds for every password-comparison function and every user
repository. -/
theorem login_anti_enumeration (compare : String → String → Bool)
    (db : String → Option UserDoc) (emailA emailB pA pB : String)
    (now : Int) :
    (db emailA = none →
      login compare db emailA pA now = .error "Invalid email or password")
    ∧ (∀ u, db emailB = some u → u.isActive = true →
        compare pB u.password = false →
        login compare db emailB pB now =
          .error "Invalid email or password")
    ∧ (db emailA = none → ∀ u, db emailB = some u → u.isActive = true →
        compare pB u.password = false →
        login compare db emailA pA now = login compare db emailB pB now)
    ∧ (login compare db emailA pA now =
        .error "Account is deactivated. Please contact support." →
        ∃ u, db emailA = some u ∧ u.isActive = false) := by
  have hnone : db emailA = none →
      login compare db emailA pA now =
        .error "Invalid email or password" := by
    intro h
    unfold login
    rw [h]
  have hwrong : ∀ u, db emailB = some u → u.isActive = true →
      compare pB u.password = false →
      login compare db emailB pB now =
        .error "Invalid email or password" := by
    intro u hu hact hcmp
    unfold login
    rw [hu]
    simp [hact, hcmp]
  refine ⟨hnone, hwrong, ?_, ?_⟩
  · intro h u hu hact hcmp
    rw [hnone h, hwrong u hu hact hcmp]
  · intro h
    unfold login at h
    cases hd : db emailA with
    | none =>
      rw [hd] at h
      exact absurd (Except.error.inj h) (by decide)
    | some u =>
      rw [hd] at h
      by_cases hact : u.isActive
      · simp [hact] at h
        by_cases hcmp : compare pA u.password
        · simp [hcmp] at h
        · simp [hcmp] at h
      · exact ⟨u, rfl, by simpa using hact⟩

/-- Witness for C9: the unknown-email failure and the wrong-password
failure on the concrete repository dbA are the same outcome. -/
theorem login_anti_enumeration_witness :
    login compareA dbA "no@x.com" "pw" 0 =
      login compareA dbA "a@x.com" "wrong" 0 :=
  (login_anti_enumeration compareA dbA "no@x.com" "a@x.com" "pw" "wrong"
      0).2.2.1 rfl userActive rfl rfl (by decide)

/-- C5: once refreshToken(t) has succeeded from a well-formed token
state (every stored token stamped before the clock), calling
refreshToken again with the same previous token t fails with the
"Invalid refresh token" mismatch error: rotation has overwritten the
stored token with a strictly fresher one. Holds for every user
repository. -/
theorem refreshToken_rotation_invalidates
    (findById : String → Option UserDoc) (t : Token) (st : TokenState)
    (pair : TokenPair) (st2 : TokenState) (hwf : st.WF)
    (h : refreshToken findById t st = .ok (pair, st2)) :
    refreshToken findById t st2 = .error "Invalid refresh token" := by
  unfold refreshToken generateTokenPair at h
  split at h
  · cases h
  · rename_i stored hs
    split at h
    · cases h
    · rename_i hne
      have hst : stored = t := not_not.mp hne
      split at h
      · cases h
      · rename_i user hu
        split at h
        · cases h
        · rename_i hact
          have h2 := Except.ok.inj h
          have hst2 : st2 = storeRefreshToken t.userId
              { userId := t.userId, issuedAt := st.clock, isRefresh := true }
              { st with clock := st.clock + 1 } := by
            have := congrArg Prod.snd h2
            exact this.symm
          have hfresh : t.issuedAt < st.clock := hwf t.userId t (hst ▸ hs)
          have hlook : st2.store t.userId = some
              { userId := t.userId, issuedAt := st.clock,
                isRefresh := true } := by
            rw [hst2]
            unfold storeRefreshToken
            simp
          have hne2 : ({ userId := t.userId, issuedAt := st.clock,
                         isRefresh := true } : Token) ≠ t := by
            intro heq
            have hiss := congrArg Token.issuedAt heq
            simp only at hiss
            omega
          simp [refreshToken, hlook, hne2]

/-- A user repository for the rotation witness: every id resolves to
the active user. -/
def findByIdA : String → Option UserDoc := fun _ => some userActive

/-- The previous refresh token of the rotation witness. -/
def tokA : Token := { userId := "u1", issuedAt := 0, isRefresh := true }

/-- The token state before rotation: tokA stored for user u1, clock
1. -/
def stA : TokenState :=
  { store := fun u => if u = "u1" then some tokA else none, clock := 1 }

/-- The token pair issued by the rotation of tokA from stA. -/
def pairA : TokenPair :=
  { accessToken := { userId := "u1", issuedAt := 1, isRefresh := false },
    refreshToken := { userId := "u1", issuedAt := 1, isRefresh := true } }

/-- The token state after that rotation. -/
def stA2 : TokenState :=
  storeRefreshToken "u1"
    { userId := "u1", issuedAt := 1, isRefresh := true }
    { stA with clock := 2 }

/-- Witness for C5: reusing tokA after its successful rotation fails
with the mismatch error. -/
theorem refreshToken_rotation_invalidates_witness :
    refreshToken findByIdA tokA stA2 = .error "Invalid refresh token" :=
  refreshToken_rotation_invalidates findByIdA tokA stA pairA stA2
    (fun u tok h => by
      by_cases hu : u = "u1"
      · subst hu
        simp only [stA, if_pos rfl] at h
        cases h
        decide
      · simp [stA, hu] at h)
    (by rfl)

end LiveMart
